import Mathlib

/-!
Verification of `apps/desktop/scripts/resize-dmg-bg.py`.

The script is a four-step linear procedure: decode the image at a fixed
path, print its size and DPI metadata, resize it to 590x380 with the
LANCZOS filter, save it back to the same path with dpi=(72, 72), and print
a fixed confirmation line.

The embedding models the script as a trace of observable events (prints
and file writes) over a small world: the target file's state, a
writability flag for it, and the rest of the environment (other files,
environment variables) that the script never touches.  Pixel data is kept
as a row-major list of abstract samples; the resampling filters' pixel
arithmetic is not reproduced, but the resize operation's observable
geometry is: every output pixel is sampled from the full source frame by
per-axis coordinate scaling, matching PIL's `Image.resize` with the
default `box=None` (full-frame, independent horizontal and vertical
scale factors).
-/

namespace ResizeDmgBg

/-- PIL resampling filters (`PIL.Image` constants). -/
inductive Filter
  | nearest
  | box
  | bilinear
  | hamming
  | bicubic
  | lanczos
deriving DecidableEq, Repr

/-- A decoded raster image: width, height, row-major pixel samples, and the
optional DPI entry of the metadata map (`img.info.get('dpi')`). -/
structure Image where
  width : Nat
  height : Nat
  pxdata : List Nat
  dpi : Option (Nat × Nat)
deriving DecidableEq, Repr

/-- Pixel sample at column `x`, row `y` (row-major). -/
def Image.pixelAt (img : Image) (x y : Nat) : Nat :=
  img.pxdata.getD (y * img.width + x) 0

/-- Model of PIL's `Image.resize(size, filter)` with the default full-frame
source box: the result has exactly the requested dimensions, every output
pixel is sampled from the source at per-axis scaled coordinates, and the
metadata map (hence the DPI entry) is carried over from the source.  The
filter's convolution weights are not modelled; the sampling geometry is. -/
def Image.resize (img : Image) (size : Nat × Nat) (f : Filter) : Image :=
  { width := size.1
    height := size.2
    pxdata := (List.range (size.1 * size.2)).map fun i =>
      img.pixelAt (i % size.1 * img.width / size.1)
                  (i / size.1 * img.height / size.2)
    dpi := img.dpi }

/-- Line 5: `src = "apps/desktop/build/dmg-background.png"`. -/
def srcPath : String := "apps/desktop/build/dmg-background.png"

/-- Line 9, the target size passed to `img.resize`. -/
def scriptTargetSize : Nat × Nat := (590, 380)

/-- Line 9, the resampling filter passed to `img.resize`: `Image.LANCZOS`. -/
def scriptFilter : Filter := Filter.lanczos

/-- Python's `repr` of an optional DPI tuple: `None` when absent,
`(a, b)` when present (as in `img.info.get('dpi')` interpolation). -/
def fmtDpi : Option (Nat × Nat) → String
  | none => "None"
  | some (a, b) => "(" ++ toString a ++ ", " ++ toString b ++ ")"

/-- Python's `repr` of the size tuple `img.size`. -/
def fmtSize (w h : Nat) : String :=
  "(" ++ toString w ++ ", " ++ toString h ++ ")"

/-- Line 7: the first printed line,
`f"Before: \x7bimg.size\x7d, DPI: \x7bimg.info.get('dpi')\x7d"`. -/
def beforeLine (img : Image) : String :=
  "Before: " ++ fmtSize img.width img.height ++ ", DPI: " ++ fmtDpi img.dpi

/-- Line 11: the second printed line, a fixed literal. -/
def afterLine : String := "After:  (590, 380), DPI: (72, 72)"

/-- Line 9 as applied by the script: `img.resize((590, 380), Image.LANCZOS)`. -/
def scriptResize (img : Image) : Image :=
  img.resize scriptTargetSize scriptFilter

/-- The decoded content of the file written by line 10,
`img.save(src, dpi=(72, 72))`: the resized image with the DPI metadata
entry set to `(72, 72)` (PNG encoding is lossless, so decoding the written
file recovers the buffer that was saved, with the explicit DPI tag). -/
def savedImage (img : Image) : Image :=
  { scriptResize img with dpi := some (72, 72) }

/-- State of a file on disk: missing, present but not decodable as an
image, or present with the given decoded content. -/
inductive FileState
  | absent
  | undecodable
  | image (img : Image)
deriving DecidableEq, Repr

/-- The world the script runs in: the file at `srcPath`, whether that path
is writable, and the parts of the environment the script never touches
(all other files, and the process environment). -/
structure World where
  target : FileState
  targetWritable : Bool
  otherFiles : List (String × FileState)
  env : List (String × String)
deriving DecidableEq, Repr

/-- Observable events of a run: a line printed to standard output, or a
file written at a path. -/
inductive Event
  | print (line : String)
  | write (path : String) (f : FileState)
deriving DecidableEq, Repr

/-- Update an association list of files at one path. -/
def updateFiles : List (String × FileState) → String → FileState →
    List (String × FileState)
  | [], p, f => [(p, f)]
  | (q, g) :: rest, p, f =>
    if q = p then (q, f) :: rest else (q, g) :: updateFiles rest p f

/-- Effect of one event on the world.  Prints do not change the world; a
write replaces the file at its path. -/
def applyEvent (w : World) : Event → World
  | Event.print _ => w
  | Event.write p f =>
    if p = srcPath then { w with target := f }
    else { w with otherFiles := updateFiles w.otherFiles p f }

/-- The script's event trace and final fault, straight-line as in the
source (lines 6-11): decode, print the Before line, resize, save, print
the After line.  A missing or undecodable file makes `Image.open` raise
before anything is printed; an unwritable target makes `img.save` raise
after the Before line and before the After line.  The diagnostic strings
are the Python exception class names that surface to the operator. -/
def runEvents (w : World) : List Event × Option String :=
  match w.target with
  | FileState.absent => ([], some "FileNotFoundError")
  | FileState.undecodable => ([], some "UnidentifiedImageError")
  | FileState.image img =>
    if w.targetWritable then
      ([Event.print (beforeLine img),
        Event.write srcPath (FileState.image (savedImage img)),
        Event.print afterLine], none)
    else
      ([Event.print (beforeLine img)], some "OSError")

/-- The lines printed to standard output by a trace, in order. -/
def eventsStdout : List Event → List String
  | [] => []
  | Event.print s :: es => s :: eventsStdout es
  | Event.write _ _ :: es => eventsStdout es

/-- Result of a run: final world, standard output, and the uncaught fault
(`none` means the process exits with status 0). -/
structure Outcome where
  world : World
  stdout : List String
  error : Option String
deriving DecidableEq, Repr

/-- One run of the script on a world. -/
def run (w : World) : Outcome :=
  let t := runEvents w
  { world := t.1.foldl applyEvent w
    stdout := eventsStdout t.1
    error := t.2 }

end ResizeDmgBg

namespace ResizeDmgBg

/-! ## Sample inputs used by the witnesses -/

/-- A wide 2x1 input with no DPI metadata. -/
def imgWide : Image := ⟨2, 1, [10, 20], none⟩

/-- A square 3x3 input with DPI metadata (144, 144). -/
def imgSquare : Image := ⟨3, 3, [1, 2, 3, 4, 5, 6, 7, 8, 9], some (144, 144)⟩

/-- An input that already has the target dimensions and DPI. -/
def imgConforming : Image :=
  ⟨590, 380, List.replicate (590 * 380) 0, some (72, 72)⟩

/-- A world holding a given image at the target path, with an unrelated
file and environment variable present. -/
def worldWith (img : Image) : World :=
  ⟨FileState.image img, true, [("other.txt", FileState.undecodable)],
   [("HOME", "/root")]⟩

/-- A world whose target path is present but not writable. -/
def worldReadOnly (img : Image) : World :=
  ⟨FileState.image img, false, [], []⟩

/-! ## Helper lemmas -/

/-- A successful run: decodable target, writable path. -/
theorem run_success (w : World) (img : Image)
    (h1 : w.target = FileState.image img) (h2 : w.targetWritable = true) :
    run w = ⟨{ w with target := FileState.image (savedImage img) },
             [beforeLine img, afterLine], none⟩ := by
  simp [run, runEvents, h1, h2, applyEvent, eventsStdout, List.foldl, srcPath]

/-- A run on a decodable target at an unwritable path: `img.save` raises
after the Before line was printed. -/
theorem run_readonly (w : World) (img : Image)
    (h1 : w.target = FileState.image img) (h2 : w.targetWritable = false) :
    run w = ⟨w, [beforeLine img], some "OSError"⟩ := by
  simp [run, runEvents, h1, h2, applyEvent, eventsStdout, List.foldl]

/-- A run on a missing target file. -/
theorem run_absent (w : World) (h : w.target = FileState.absent) :
    run w = ⟨w, [], some "FileNotFoundError"⟩ := by
  simp [run, runEvents, h, eventsStdout, List.foldl]

/-- A run on an undecodable target file. -/
theorem run_undecodable (w : World) (h : w.target = FileState.undecodable) :
    run w = ⟨w, [], some "UnidentifiedImageError"⟩ := by
  simp [run, runEvents, h, eventsStdout, List.foldl]

/-- The Before line never coincides with the After line: the two strings
differ already in their first character. -/
theorem beforeLine_ne_afterLine (img : Image) : beforeLine img ≠ afterLine := by
  intro h
  have h2 := congrArg String.data h
  simp [beforeLine, afterLine, fmtSize] at h2

/-- The saved image always has the target dimensions and DPI. -/
theorem savedImage_spec (img : Image) :
    (savedImage img).width = 590 ∧ (savedImage img).height = 380 ∧
    (savedImage img).dpi = some (72, 72) :=
  ⟨rfl, rfl, rfl⟩

end ResizeDmgBg

namespace ResizeDmgBg

/-- A world with the target path absent. -/
def worldAbsent : World := ⟨FileState.absent, true, [], []⟩

/-- A world with an undecodable file at the target path. -/
def worldCorrupt : World := ⟨FileState.undecodable, true, [], []⟩

/-! ## Claims -/

/-- C1: for every decodable input image (of any size and any original DPI
metadata, present or absent), after one successful run the file at the
fixed path has pixel dimensions exactly 590x380 and DPI metadata exactly
(72, 72). -/
theorem c1_output_dims_and_dpi (w : World) (img : Image)
    (h1 : w.target = FileState.image img) (h2 : w.targetWritable = true) :
    (run w).error = none ∧
    (run w).world.target = FileState.image (savedImage img) ∧
    (savedImage img).width = 590 ∧ (savedImage img).height = 380 ∧
    (savedImage img).dpi = some (72, 72) := by
  rw [run_success w img h1 h2]
  exact ⟨rfl, rfl, rfl, rfl, rfl⟩

/-- Witness for C1 on a wide DPI-less input. -/
theorem c1_witness :
    (run (worldWith imgWide)).error = none ∧
    (run (worldWith imgWide)).world.target =
      FileState.image (savedImage imgWide) ∧
    (savedImage imgWide).width = 590 ∧ (savedImage imgWide).height = 380 ∧
    (savedImage imgWide).dpi = some (72, 72) :=
  c1_output_dims_and_dpi (worldWith imgWide) imgWide rfl rfl

/-- C2: the dimension transform is a fixed point at the target size: one
run yields a 590x380 file, and a second run on the already-resized file
again yields a 590x380 file. -/
theorem c2_fixed_point (w : World) (img : Image)
    (h1 : w.target = FileState.image img) (h2 : w.targetWritable = true) :
    (∃ i1, (run w).world.target = FileState.image i1 ∧
      i1.width = 590 ∧ i1.height = 380) ∧
    (∃ i2, (run (run w).world).world.target = FileState.image i2 ∧
      i2.width = 590 ∧ i2.height = 380) := by
  have hs := run_success w img h1 h2
  have h1' : (run w).world.target = FileState.image (savedImage img) := by
    rw [hs]
  have h2' : (run w).world.targetWritable = true := by
    rw [hs]; exact h2
  refine ⟨⟨savedImage img, h1', rfl, rfl⟩,
    ⟨savedImage (savedImage img), ?_, rfl, rfl⟩⟩
  rw [run_success (run w).world (savedImage img) h1' h2']

/-- Witness for C2 on a square input. -/
theorem c2_witness :
    (∃ i1, (run (worldWith imgSquare)).world.target = FileState.image i1 ∧
      i1.width = 590 ∧ i1.height = 380) ∧
    (∃ i2, (run (run (worldWith imgSquare)).world).world.target =
      FileState.image i2 ∧ i2.width = 590 ∧ i2.height = 380) :=
  c2_fixed_point (worldWith imgSquare) imgSquare rfl rfl

/-- C3: the resize produces a buffer of exactly 590x380 with the Lanczos
filter, as a full-frame per-axis stretch of the whole input regardless of
its aspect ratio (every output pixel samples the source at independently
scaled coordinates over the full frame - never a crop or letterbox). -/
theorem c3_full_frame_stretch (img : Image) :
    (scriptResize img).width = 590 ∧ (scriptResize img).height = 380 ∧
    scriptFilter = Filter.lanczos ∧
    ∀ x y : Nat, x < 590 → y < 380 →
      (scriptResize img).pixelAt x y =
        img.pixelAt (x * img.width / 590) (y * img.height / 380) := by
  refine ⟨rfl, rfl, rfl, fun x y hx hy => ?_⟩
  have hidx : y * 590 + x < 590 * 380 := by omega
  unfold scriptResize Image.resize Image.pixelAt scriptTargetSize
  simp only [List.getD_eq_getElem?_getD, List.getElem?_map, List.getElem?_range,
    hidx, Option.map_some', Option.getD_some]
  have hmod : (y * 590 + x) % 590 = x := by omega
  have hdiv : (y * 590 + x) / 590 = y := by omega
  rw [hmod, hdiv]

/-- Witness for C3 at the bottom-right output pixel of the wide input. -/
theorem c3_witness :
    (scriptResize imgWide).width = 590 ∧ (scriptResize imgWide).height = 380 ∧
    scriptFilter = Filter.lanczos ∧
    (scriptResize imgWide).pixelAt 589 379 =
      imgWide.pixelAt (589 * imgWide.width / 590)
        (379 * imgWide.height / 380) := by
  obtain ⟨h1, h2, h3, h4⟩ := c3_full_frame_stretch imgWide
  exact ⟨h1, h2, h3, h4 589 379 (by decide) (by decide)⟩

/-- C4: the first printed line reports exactly the decoded width, height
and DPI metadata of the pre-resize input; absent DPI prints as `None`
rather than raising. -/
theorem c4_before_line_reports_input (w : World) (img : Image)
    (h : w.target = FileState.image img) :
    (run w).stdout.head? = some (beforeLine img) ∧
    beforeLine img =
      "Before: " ++ fmtSize img.width img.height ++ ", DPI: " ++
        fmtDpi img.dpi ∧
    fmtDpi none = "None" ∧
    ∀ a b : Nat, fmtDpi (some (a, b)) =
      "(" ++ toString a ++ ", " ++ toString b ++ ")" := by
  refine ⟨?_, rfl, rfl, fun a b => rfl⟩
  cases hw : w.targetWritable with
  | true => rw [run_success w img h hw]; rfl
  | false => rw [run_readonly w img h hw]; rfl

/-- Witness for C4 on the square input carrying DPI (144, 144). -/
theorem c4_witness :
    (run (worldWith imgSquare)).stdout.head? = some (beforeLine imgSquare) ∧
    beforeLine imgSquare =
      "Before: " ++ fmtSize 3 3 ++ ", DPI: " ++ fmtDpi (some (144, 144)) ∧
    fmtDpi none = "None" ∧
    fmtDpi (some (144, 144)) = "(144, 144)" := by
  obtain ⟨h1, h2, h3, h4⟩ :=
    c4_before_line_reports_input (worldWith imgSquare) imgSquare rfl
  exact ⟨h1, h2, h3, (h4 144 144).trans rfl⟩

/-- C5: when the file at the fixed path is missing or undecodable, the
process terminates with an uncaught fatal fault, the world is unchanged
(no file created, modified or deleted; no retry or fallback), and nothing
was printed. -/
theorem c5_decode_failure_state_unchanged (w : World)
    (h : w.target = FileState.absent ∨ w.target = FileState.undecodable) :
    (∃ e, (run w).error = some e) ∧ (run w).world = w ∧
    (run w).stdout = [] := by
  cases h with
  | inl h => rw [run_absent w h]; exact ⟨⟨_, rfl⟩, rfl, rfl⟩
  | inr h => rw [run_undecodable w h]; exact ⟨⟨_, rfl⟩, rfl, rfl⟩

/-- Witness for C5 on a world with the target path missing. -/
theorem c5_witness :
    (∃ e, (run worldAbsent).error = some e) ∧
    (run worldAbsent).world = worldAbsent ∧
    (run worldAbsent).stdout = [] :=
  c5_decode_failure_state_unchanged worldAbsent (Or.inl rfl)

/-- C6: a successful run's observable effects are exactly overwriting the
one file at the fixed path and printing two lines: the final world equals
the initial one with only the target file replaced (other files,
environment and writability untouched). -/
theorem c6_frame (w : World) (img : Image)
    (h1 : w.target = FileState.image img) (h2 : w.targetWritable = true) :
    (run w).error = none ∧
    (run w).stdout = [beforeLine img, afterLine] ∧
    (run w).world = { w with target := FileState.image (savedImage img) } := by
  rw [run_success w img h1 h2]
  exact ⟨rfl, rfl, rfl⟩

/-- Witness for C6 on a world with an unrelated file and an environment
variable present. -/
theorem c6_witness :
    (run (worldWith imgSquare)).error = none ∧
    (run (worldWith imgSquare)).stdout =
      [beforeLine imgSquare, afterLine] ∧
    (run (worldWith imgSquare)).world =
      { worldWith imgSquare with
          target := FileState.image (savedImage imgSquare) } :=
  c6_frame (worldWith imgSquare) imgSquare rfl rfl

/-- C7: the resize and overwrite are unconditional: for every decodable
input - including one already at 590x380 with DPI (72, 72) - the trace
contains the write of the resampled, re-encoded buffer to the fixed path,
with no short-circuit on the current dimensions. -/
theorem c7_unconditional_overwrite (w : World) (img : Image)
    (h1 : w.target = FileState.image img) (h2 : w.targetWritable = true) :
    Event.write srcPath (FileState.image (savedImage img)) ∈ (runEvents w).1 ∧
    savedImage img = { scriptResize img with dpi := some (72, 72) } ∧
    (run w).world.target = FileState.image (savedImage img) := by
  refine ⟨?_, rfl, ?_⟩
  · simp [runEvents, h1, h2]
  · rw [run_success w img h1 h2]

/-- Witness for C7 on an input that already conforms to the target. -/
theorem c7_witness :
    Event.write srcPath (FileState.image (savedImage imgConforming)) ∈
      (runEvents (worldWith imgConforming)).1 ∧
    savedImage imgConforming =
      { scriptResize imgConforming with dpi := some (72, 72) } ∧
    (run (worldWith imgConforming)).world.target =
      FileState.image (savedImage imgConforming) :=
  c7_unconditional_overwrite (worldWith imgConforming) imgConforming rfl rfl

/-- C8: the second printed line is the fixed literal
`After:  (590, 380), DPI: (72, 72)`, the same constant for every input
(never re-read from the written file). -/
theorem c8_after_line_literal (w : World) (img : Image)
    (h1 : w.target = FileState.image img) (h2 : w.targetWritable = true) :
    (run w).stdout[1]? = some afterLine ∧
    afterLine = "After:  (590, 380), DPI: (72, 72)" := by
  rw [run_success w img h1 h2]
  exact ⟨rfl, rfl⟩

/-- Witness for C8 on the wide input. -/
theorem c8_witness :
    (run (worldWith imgWide)).stdout[1]? = some afterLine ∧
    afterLine = "After:  (590, 380), DPI: (72, 72)" :=
  c8_after_line_literal (worldWith imgWide) imgWide rfl rfl

/-- C9: determinism: two runs whose worlds agree on the target file
content and its writability produce identical standard output, identical
target file content, and identical exit faults. -/
theorem c9_deterministic (w1 w2 : World)
    (ht : w1.target = w2.target)
    (hw : w1.targetWritable = w2.targetWritable) :
    (run w1).stdout = (run w2).stdout ∧
    (run w1).world.target = (run w2).world.target ∧
    (run w1).error = (run w2).error := by
  cases h : w2.target with
  | absent =>
    rw [run_absent w1 (ht.trans h), run_absent w2 h]
    exact ⟨rfl, ht, rfl⟩
  | undecodable =>
    rw [run_undecodable w1 (ht.trans h), run_undecodable w2 h]
    exact ⟨rfl, ht, rfl⟩
  | image img =>
    cases hb : w2.targetWritable with
    | true =>
      rw [run_success w1 img (ht.trans h) (hw.trans hb),
        run_success w2 img h hb]
      exact ⟨rfl, rfl, rfl⟩
    | false =>
      rw [run_readonly w1 img (ht.trans h) (hw.trans hb),
        run_readonly w2 img h hb]
      exact ⟨rfl, ht, rfl⟩

/-- Witness for C9: two worlds sharing the target file but differing in
other files and environment. -/
theorem c9_witness :
    (run (worldWith imgSquare)).stdout =
      (run (⟨FileState.image imgSquare, true, [], []⟩ : World)).stdout ∧
    (run (worldWith imgSquare)).world.target =
      (run (⟨FileState.image imgSquare, true, [], []⟩ : World)).world.target ∧
    (run (worldWith imgSquare)).error =
      (run (⟨FileState.image imgSquare, true, [], []⟩ : World)).error :=
  c9_deterministic (worldWith imgSquare)
    ⟨FileState.image imgSquare, true, [], []⟩ rfl rfl

/-- C10: output ordering: on a writable target the trace is exactly
Before-print, then the file write, then the After-print; on a save
failure exactly the Before line has been printed and the After line never
appears. -/
theorem c10_output_ordering (w : World) (img : Image)
    (h : w.target = FileState.image img) :
    (w.targetWritable = true →
      (runEvents w).1 =
        [Event.print (beforeLine img),
         Event.write srcPath (FileState.image (savedImage img)),
         Event.print afterLine] ∧ (run w).error = none) ∧
    (w.targetWritable = false →
      (run w).stdout = [beforeLine img] ∧
      (run w).error = some "OSError" ∧
      afterLine ∉ (run w).stdout) := by
  constructor
  · intro hw
    constructor
    · simp [runEvents, h, hw]
    · rw [run_success w img h hw]
  · intro hw
    rw [run_readonly w img h hw]
    refine ⟨rfl, rfl, ?_⟩
    have hne := beforeLine_ne_afterLine img
    simp only [List.mem_singleton]
    exact fun hEq => hne hEq.symm

/-- Witness for C10: one writable world and one read-only world. -/
theorem c10_witness :
    ((runEvents (worldWith imgWide)).1 =
      [Event.print (beforeLine imgWide),
       Event.write srcPath (FileState.image (savedImage imgWide)),
       Event.print afterLine] ∧ (run (worldWith imgWide)).error = none) ∧
    ((run (worldReadOnly imgWide)).stdout = [beforeLine imgWide] ∧
     (run (worldReadOnly imgWide)).error = some "OSError" ∧
     afterLine ∉ (run (worldReadOnly imgWide)).stdout) :=
  ⟨(c10_output_ordering (worldWith imgWide) imgWide rfl).1 rfl,
   (c10_output_ordering (worldReadOnly imgWide) imgWide rfl).2 rfl⟩

end ResizeDmgBg
